import Mathlib

/-!
Verification of the Streamlit LLM chatbot (`src/app.py`) against its
natural-language specification.  The program is embedded shallowly:

* `Message` models the role/content dictionaries stored in
  `st.session_state.messages`.
* `ClientHandle` models the `OpenAI(base_url=..., api_key=...)` object
  built by `create_openai_client`.
* `Endpoint` abstracts the remote chat-completion operation
  (`client.chat.completions.create`): it maps the call arguments to
  either a `ChatResponse` (self success) or a raised exception carried as
  a string (`Except.error`).
* `get_llm_response` mirrors the Python function of the same name and
  additionally records the list of endpoint calls it performs, so that
  "exactly one network call" is a provable statement.
* `submit`, `update_settings`, `clear_chat`, `rerender` model the three
  user-triggered transitions of `main` and the pure redraw.
* `initialize_session_state` is modelled over `RawSession`, where the
  `Option` wrapper distinguishes a key being absent from the session
  state from it being present (possibly holding Python `None`).
-/

/-- One chat turn: the dict `{"role": ..., "content": ...}` of `app.py`. -/
structure Message where
  role : String
  content : String
deriving DecidableEq, Repr

/-- The object returned by `create_openai_client` / `OpenAI(...)`:
bound to a base URL and a credential. -/
structure ClientHandle where
  base_url : String
  api_key : String
deriving DecidableEq, Repr

/-- `create_openai_client(base_url, api_key)` from `app.py`. -/
def create_openai_client (base_url : String) (api_key : String) : ClientHandle :=
  ⟨base_url, api_key⟩

/-- The `message` field of one choice of a chat-completion response. -/
structure RespMessage where
  content : String
deriving DecidableEq, Repr

/-- One element of `response.choices`. -/
structure Choice where
  message : RespMessage
deriving DecidableEq, Repr

/-- A chat-completion response: `{"choices": [...]}`. -/
structure ChatResponse where
  choices : List Choice
deriving DecidableEq, Repr

/-- The arguments of one call to `client.chat.completions.create`. -/
structure CallRecord where
  client : ClientHandle
  model : String
  messages : List Message
  temperature : ℚ
deriving DecidableEq, Repr

/-- The remote chat-completion operation: given the call arguments it
either returns a response or raises (modelled as `Except.error` carrying
the exception's string form). -/
def Endpoint : Type :=
  ClientHandle → String → List Message → ℚ → Except String ChatResponse

/-- `get_llm_response(client, model, messages, temperature)` from
`app.py`: performs the single call `client.chat.completions.create(...)`
and returns `response.choices[0].message.content`.  The second component
is the trace of endpoint calls performed.  Indexing an empty `choices`
list raises Python's `IndexError`, also an exception to the caller. -/
def get_llm_response (ep : Endpoint) (client : ClientHandle) (model : String)
    (messages : List Message) (temperature : ℚ) :
    Except String String × List CallRecord :=
  let call : CallRecord := ⟨client, model, messages, temperature⟩
  match ep client model messages temperature with
  | Except.error e => (Except.error e, [call])
  | Except.ok r =>
    match r.choices with
    | [] => (Except.error "list index out of range", [call])
    | c :: _ => (Except.ok c.message.content, [call])

/-- The per-session mutable state used by `main` after
`initialize_session_state` has run: `st.session_state.messages` and
`st.session_state.client`. -/
structure AppState where
  messages : List Message
  client : Option ClientHandle
deriving DecidableEq, Repr

/-- The four sidebar widget values at the moment an event fires:
`llm_url`, `model_name`, `api_key` and the temperature slider. -/
structure Config where
  llm_url : String
  model_name : String
  api_key : String
  temperature : ℚ
deriving DecidableEq, Repr

/-- The value produced by `st.slider(min_value=lo, max_value=hi, ...)`:
the widget constrains its value to the range `[lo, hi]`. -/
def slider_value (lo hi x : ℚ) : ℚ :=
  max lo (min hi x)

/-- What the submit branch displayed in place of the assistant reply:
nothing (branch skipped), the reply markdown, or the inline error
annotation together with the secondary error notice. -/
inductive SubmitDisplay where
  | skipped : SubmitDisplay
  | reply : String → SubmitDisplay
  | failure : String → String → SubmitDisplay
deriving DecidableEq, Repr

/-- The secondary notice shown by `st.error(...)` on failure. -/
def failureNotice : String :=
  "Failed to get response. Please check your LLM URL and ensure the model is running."

/-- Outcome of one pass through the chat-input branch of `main`:
the session state afterwards, what was displayed for the assistant
slot, and the endpoint calls made. -/
structure SubmitResult where
  state : AppState
  display : SubmitDisplay
  calls : List CallRecord
deriving DecidableEq, Repr

/-- Lines 162-164 of `app.py`: the client actually used by a
submission — the stored one, or, when `st.session_state.client is None`,
one freshly built from the currently displayed widget values. -/
def effectiveClient (cfg : Config) (st : AppState) : ClientHandle :=
  match st.client with
  | none => create_openai_client cfg.llm_url cfg.api_key
  | some c => c

/-- Lines 161-200 of `app.py`: the `if prompt := st.chat_input(...)`
branch.  `input` is the value returned by `st.chat_input` (`none` when
nothing was submitted); a falsy value (no submission, or the empty
string) skips the branch.  Otherwise: the client is lazily built from
the current widget values when absent, the user message is appended,
`get_llm_response` is invoked with the full history, and its result
either appends the assistant message or is caught and displayed as
`f"❌ Error: {str(e)}"` plus the secondary notice. -/
def submit (cfg : Config) (ep : Endpoint) (st : AppState)
    (input : Option String) : SubmitResult :=
  match input with
  | none => ⟨st, SubmitDisplay.skipped, []⟩
  | some prompt =>
    if prompt = "" then ⟨st, SubmitDisplay.skipped, []⟩
    else
      let client : ClientHandle := effectiveClient cfg st
      let msgs1 : List Message := st.messages ++ [⟨"user", prompt⟩]
      let res := get_llm_response ep client cfg.model_name msgs1 cfg.temperature
      match res.1 with
      | Except.ok response =>
        ⟨⟨msgs1 ++ [⟨"assistant", response⟩], some client⟩,
          SubmitDisplay.reply response, res.2⟩
      | Except.error e =>
        ⟨⟨msgs1, some client⟩,
          SubmitDisplay.failure ("❌ Error: " ++ e) failureNotice, res.2⟩

/-- Lines 140-142 of `app.py`: the "Update Settings" button rebuilds the
client from the currently entered URL and key, unconditionally. -/
def update_settings (cfg : Config) (st : AppState) : AppState :=
  ⟨st.messages, some (create_openai_client cfg.llm_url cfg.api_key)⟩

/-- Lines 145-147 of `app.py`: the "Clear Chat" button empties the
message list (the client is untouched) and triggers a rerun. -/
def clear_chat (st : AppState) : AppState :=
  ⟨[], st.client⟩

/-- `display_chat_messages` only reads the session state to render it;
as a state transformer a re-render is the identity. -/
def rerender (st : AppState) : AppState :=
  st

/-- Session state before `initialize_session_state`: the outer `Option`
is key presence (`"messages" in st.session_state`), the inner value of
`client` may itself be Python `None`. -/
structure RawSession where
  messages : Option (List Message)
  client : Option (Option ClientHandle)
deriving DecidableEq, Repr

/-- `initialize_session_state()` from `app.py`: creates
`st.session_state.messages = []` and `st.session_state.client = None`
only for the keys that are absent. -/
def initialize_session_state (s : RawSession) : RawSession :=
  let s1 : RawSession :=
    match s.messages with
    | none => ⟨some [], s.client⟩
    | some _ => s
  match s1.client with
  | none => ⟨s1.messages, some none⟩
  | some _ => s1

/-- Folding a list of chat submissions through the submit branch,
keeping only the session state (one rerun per submission). -/
def run_submissions (cfg : Config) (ep : Endpoint) (st : AppState) :
    List String → AppState
  | [] => st
  | p :: ps => run_submissions cfg ep (submit cfg ep st (some p)).state ps

/-- The conversation shape asserted by the spec for a run of successful
submissions: for each (prompt, reply) pair, the user message followed by
the assistant message. -/
def chatPairs : List (String × String) → List Message
  | [] => []
  | (p, r) :: rest => ⟨"user", p⟩ :: ⟨"assistant", r⟩ :: chatPairs rest

/-- An endpoint on which every completion request succeeds: every call
returns a response with at least one choice. -/
def EndpointAlwaysOk (ep : Endpoint) : Prop :=
  ∀ c m msgs t, ∃ r ch rest,
    ep c m msgs t = Except.ok r ∧ r.choices = ch :: rest

/-- An endpoint whose every call raises, with string form `e`. -/
def EndpointAlwaysRaises (ep : Endpoint) (e : String) : Prop :=
  ∀ c m msgs t, ep c m msgs t = Except.error e

/-- All stored roles are among the two enumerated values. -/
def RolesOK (msgs : List Message) : Prop :=
  ∀ m ∈ msgs, m.role = "user" ∨ m.role = "assistant"

/-- A stub endpoint that ignores its arguments and returns a single
choice containing `reply`. -/
def stubEndpoint (reply : String) : Endpoint :=
  fun _ _ _ _ => Except.ok ⟨[⟨⟨reply⟩⟩]⟩

/-! ## Basic lemmas about the embedded operations -/

lemma get_llm_response_of_ok (ep : Endpoint) (c : ClientHandle) (m : String)
    (msgs : List Message) (t : ℚ) (r : ChatResponse) (ch : Choice) (rest : List Choice)
    (h : ep c m msgs t = Except.ok r) (hch : r.choices = ch :: rest) :
    get_llm_response ep c m msgs t =
      (Except.ok ch.message.content, [⟨c, m, msgs, t⟩]) := by
  simp [get_llm_response, h, hch]

lemma get_llm_response_of_error (ep : Endpoint) (c : ClientHandle) (m : String)
    (msgs : List Message) (t : ℚ) (e : String)
    (h : ep c m msgs t = Except.error e) :
    get_llm_response ep c m msgs t = (Except.error e, [⟨c, m, msgs, t⟩]) := by
  simp [get_llm_response, h]

lemma get_llm_response_calls (ep : Endpoint) (c : ClientHandle) (m : String)
    (msgs : List Message) (t : ℚ) :
    (get_llm_response ep c m msgs t).2 = [⟨c, m, msgs, t⟩] := by
  unfold get_llm_response
  rcases ep c m msgs t with e | r
  · rfl
  · rcases hc : r.choices with _ | ⟨ch, rest⟩ <;> simp [hc]

lemma submit_of_ok (cfg : Config) (ep : Endpoint) (st : AppState) (p : String)
    (hp : p ≠ "") (r : ChatResponse) (ch : Choice) (rest : List Choice)
    (h : ep (effectiveClient cfg st) cfg.model_name
      (st.messages ++ [⟨"user", p⟩]) cfg.temperature = Except.ok r)
    (hch : r.choices = ch :: rest) :
    submit cfg ep st (some p) =
      ⟨⟨st.messages ++ [⟨"user", p⟩, ⟨"assistant", ch.message.content⟩],
          some (effectiveClient cfg st)⟩,
        SubmitDisplay.reply ch.message.content,
        [⟨effectiveClient cfg st, cfg.model_name,
          st.messages ++ [⟨"user", p⟩], cfg.temperature⟩]⟩ := by
  simp [submit, hp, get_llm_response_of_ok ep _ _ _ _ r ch rest h hch]

lemma submit_of_error (cfg : Config) (ep : Endpoint) (st : AppState) (p : String)
    (hp : p ≠ "") (e : String)
    (h : ep (effectiveClient cfg st) cfg.model_name
      (st.messages ++ [⟨"user", p⟩]) cfg.temperature = Except.error e) :
    submit cfg ep st (some p) =
      ⟨⟨st.messages ++ [⟨"user", p⟩], some (effectiveClient cfg st)⟩,
        SubmitDisplay.failure ("❌ Error: " ++ e) failureNotice,
        [⟨effectiveClient cfg st, cfg.model_name,
          st.messages ++ [⟨"user", p⟩], cfg.temperature⟩]⟩ := by
  simp [submit, hp, get_llm_response_of_error ep _ _ _ _ e h]

lemma submit_calls (cfg : Config) (ep : Endpoint) (st : AppState) (p : String)
    (hp : p ≠ "") :
    (submit cfg ep st (some p)).calls =
      [⟨effectiveClient cfg st, cfg.model_name,
        st.messages ++ [⟨"user", p⟩], cfg.temperature⟩] := by
  have hc := get_llm_response_calls ep (effectiveClient cfg st) cfg.model_name
      (st.messages ++ [⟨"user", p⟩]) cfg.temperature
  simp only [submit, hp, if_false]
  split <;> simpa using hc

/-! ## Claim theorems -/

/-- C10: when no chat input is submitted (`st.chat_input` returns a
falsy value: nothing, or the empty string), the submit branch is
skipped: the Conversation Store and the Client Handle are unchanged and
no endpoint call is made. -/
theorem submit_skips_on_falsy_input (cfg : Config) (ep : Endpoint) (st : AppState) :
    submit cfg ep st none = ⟨st, SubmitDisplay.skipped, []⟩ ∧
    submit cfg ep st (some "") = ⟨st, SubmitDisplay.skipped, []⟩ := by
  exact ⟨rfl, by simp [submit]⟩

/-- C9: `initialize_session_state` only creates the empty message list
and the null client for keys that are absent, leaves present keys
unchanged, and is therefore idempotent. -/
theorem initialize_session_state_idempotent (s : RawSession) :
    initialize_session_state s =
      ⟨some (s.messages.getD []), some (s.client.getD none)⟩ ∧
    initialize_session_state (initialize_session_state s) =
      initialize_session_state s := by
  obtain ⟨m, c⟩ := s
  cases m <;> cases c <;> simp [initialize_session_state]

/-- C7: for a non-empty message sequence and a well-formed endpoint
response, `get_llm_response` performs exactly one endpoint call and
returns the text content of the first choice's message. -/
theorem get_llm_response_one_call_first_choice (ep : Endpoint) (c : ClientHandle)
    (model : String) (msgs : List Message) (t : ℚ) (r : ChatResponse)
    (ch : Choice) (rest : List Choice) (hmsgs : msgs ≠ [])
    (h : ep c model msgs t = Except.ok r) (hch : r.choices = ch :: rest) :
    get_llm_response ep c model msgs t =
      (Except.ok ch.message.content, [⟨c, model, msgs, t⟩]) :=
  get_llm_response_of_ok ep c model msgs t r ch rest h hch

/-- Witness for C7: the scenario of the spec — a stub endpoint answering
`{"choices":[{"message":{"content":"Hi there"}}]}` yields `"Hi there"`,
in exactly one call. -/
theorem get_llm_response_one_call_first_choice_witness :
    get_llm_response (stubEndpoint "Hi there") ⟨"http://localhost:11434/v1", "dummy"⟩
        "llama2" [⟨"user", "Hello"⟩] (7 / 10) =
      (Except.ok "Hi there",
        [⟨⟨"http://localhost:11434/v1", "dummy"⟩, "llama2", [⟨"user", "Hello"⟩], 7 / 10⟩]) :=
  get_llm_response_one_call_first_choice (stubEndpoint "Hi there")
    ⟨"http://localhost:11434/v1", "dummy"⟩ "llama2" [⟨"user", "Hello"⟩] (7 / 10)
    ⟨[⟨⟨"Hi there"⟩⟩]⟩ ⟨⟨"Hi there"⟩⟩ [] (by simp) rfl rfl

/-- C3: "Clear Chat" empties the Conversation Store regardless of its
prior contents, and a submission made afterwards starts from length 0:
the request it sends carries only the fresh user turn. -/
theorem clear_chat_resets_store (st : AppState) (cfg : Config) (ep : Endpoint)
    (p : String) (hp : p ≠ "") :
    (clear_chat st).messages = [] ∧
    (submit cfg ep (clear_chat st) (some p)).calls =
      [⟨effectiveClient cfg (clear_chat st), cfg.model_name,
        [⟨"user", p⟩], cfg.temperature⟩] := by
  refine ⟨rfl, ?_⟩
  have h := submit_calls cfg ep (clear_chat st) p hp
  simpa [clear_chat] using h

/-- Witness for C3: clearing a store holding 4 entries empties it, and
the next submission's request payload is the single fresh user turn. -/
theorem clear_chat_resets_store_witness :
    (clear_chat ⟨[⟨"user", "a"⟩, ⟨"assistant", "b"⟩, ⟨"user", "c"⟩,
        ⟨"assistant", "d"⟩], none⟩).messages = [] ∧
    (submit ⟨"http://localhost:11434/v1", "llama2", "dummy", 7 / 10⟩
        (stubEndpoint "Hi there")
        (clear_chat ⟨[⟨"user", "a"⟩, ⟨"assistant", "b"⟩, ⟨"user", "c"⟩,
          ⟨"assistant", "d"⟩], none⟩) (some "Hello")).calls =
      [⟨effectiveClient ⟨"http://localhost:11434/v1", "llama2", "dummy", 7 / 10⟩
          (clear_chat ⟨[⟨"user", "a"⟩, ⟨"assistant", "b"⟩, ⟨"user", "c"⟩,
            ⟨"assistant", "d"⟩], none⟩), "llama2",
        [⟨"user", "Hello"⟩], 7 / 10⟩] :=
  clear_chat_resets_store ⟨[⟨"user", "a"⟩, ⟨"assistant", "b"⟩, ⟨"user", "c"⟩,
      ⟨"assistant", "d"⟩], none⟩
    ⟨"http://localhost:11434/v1", "llama2", "dummy", 7 / 10⟩
    (stubEndpoint "Hi there") "Hello" (by simp)

/-- C5: "Update Settings" unconditionally replaces the Client Handle
with one built from the currently entered base URL and credential
(leaving the store unchanged), and the next submission's request uses
exactly that new handle, never the prior one. -/
theorem update_settings_replaces_handle (cfg cfg2 : Config) (ep : Endpoint)
    (st : AppState) (p : String) (hp : p ≠ "") :
    (update_settings cfg st).client =
      some (create_openai_client cfg.llm_url cfg.api_key) ∧
    (update_settings cfg st).messages = st.messages ∧
    (submit cfg2 ep (update_settings cfg st) (some p)).calls =
      [⟨create_openai_client cfg.llm_url cfg.api_key, cfg2.model_name,
        st.messages ++ [⟨"user", p⟩], cfg2.temperature⟩] := by
  refine ⟨rfl, rfl, ?_⟩
  have h := submit_calls cfg2 ep (update_settings cfg st) p hp
  simpa [update_settings, effectiveClient] using h

/-- Witness for C5: after updating settings to a new URL/key, the
previously stored handle is no longer used; the next request carries the
new handle. -/
theorem update_settings_replaces_handle_witness :
    (update_settings ⟨"http://new:1/v1", "llama2", "newkey", 7 / 10⟩
        ⟨[], some ⟨"http://old:2/v1", "oldkey"⟩⟩).client =
      some (create_openai_client "http://new:1/v1" "newkey") ∧
    (update_settings ⟨"http://new:1/v1", "llama2", "newkey", 7 / 10⟩
        ⟨[], some ⟨"http://old:2/v1", "oldkey"⟩⟩).messages =
      ([] : List Message) ∧
    (submit ⟨"http://new:1/v1", "llama2", "newkey", 7 / 10⟩ (stubEndpoint "Hi there")
        (update_settings ⟨"http://new:1/v1", "llama2", "newkey", 7 / 10⟩
          ⟨[], some ⟨"http://old:2/v1", "oldkey"⟩⟩) (some "Hello")).calls =
      [⟨create_openai_client "http://new:1/v1" "newkey", "llama2",
        [] ++ [⟨"user", "Hello"⟩], 7 / 10⟩] :=
  update_settings_replaces_handle ⟨"http://new:1/v1", "llama2", "newkey", 7 / 10⟩
    ⟨"http://new:1/v1", "llama2", "newkey", 7 / 10⟩ (stubEndpoint "Hi there")
    ⟨[], some ⟨"http://old:2/v1", "oldkey"⟩⟩ "Hello" (by simp)

/-- C6: every endpoint call made by a submission carries exactly the
temperature configured at submission time, and — the slider constraining
its value to `[0, 2]` — that temperature lies in `[0, 2]`. -/
theorem submit_temperature_from_slider (cfg : Config) (ep : Endpoint)
    (st : AppState) (p : String) (raw : ℚ) (hp : p ≠ "")
    (ht : cfg.temperature = slider_value 0 2 raw) :
    ∀ call ∈ (submit cfg ep st (some p)).calls,
      call.temperature = cfg.temperature ∧
      0 ≤ call.temperature ∧ call.temperature ≤ 2 := by
  intro call hcall
  rw [submit_calls cfg ep st p hp] at hcall
  simp only [List.mem_singleton] at hcall
  subst hcall
  refine ⟨rfl, ?_, ?_⟩
  · rw [ht]; exact le_max_left 0 _
  · rw [ht]; exact max_le (by norm_num) (min_le_left 2 raw)

/-- Witness for C6: with the slider at its default `0.7`, the one call
of a submission carries temperature `0.7 ∈ [0, 2]`. -/
theorem submit_temperature_from_slider_witness :
    (⟨⟨"http://localhost:11434/v1", "dummy"⟩, "llama2", [⟨"user", "Hello"⟩],
        slider_value 0 2 (7 / 10)⟩ : CallRecord).temperature =
      slider_value 0 2 (7 / 10) ∧
    0 ≤ (⟨⟨"http://localhost:11434/v1", "dummy"⟩, "llama2", [⟨"user", "Hello"⟩],
        slider_value 0 2 (7 / 10)⟩ : CallRecord).temperature ∧
    (⟨⟨"http://localhost:11434/v1", "dummy"⟩, "llama2", [⟨"user", "Hello"⟩],
        slider_value 0 2 (7 / 10)⟩ : CallRecord).temperature ≤ 2 :=
  submit_temperature_from_slider
    ⟨"http://localhost:11434/v1", "llama2", "dummy", slider_value 0 2 (7 / 10)⟩
    (stubEndpoint "Hi there") ⟨[], none⟩ "Hello" (7 / 10) (by simp) rfl
    ⟨⟨"http://localhost:11434/v1", "dummy"⟩, "llama2", [⟨"user", "Hello"⟩],
      slider_value 0 2 (7 / 10)⟩
    (by simp [submit_calls _ _ _ _ (by simp : ("Hello" : String) ≠ ""),
      effectiveClient, create_openai_client])

/-- C2: a submission whose completion request raises appends only the
user message (no assistant message): the store ends as its prior
contents plus the user turn — odd length when the prior length was even
— and the error is displayed in place of the assistant reply. -/
theorem submit_failure_orphans_user_turn (cfg : Config) (ep : Endpoint)
    (st : AppState) (p e : String) (hp : p ≠ "")
    (hf : EndpointAlwaysRaises ep e) :
    (submit cfg ep st (some p)).state.messages =
      st.messages ++ [⟨"user", p⟩] ∧
    (submit cfg ep st (some p)).display =
      SubmitDisplay.failure ("❌ Error: " ++ e) failureNotice ∧
    (Even st.messages.length →
      Odd (submit cfg ep st (some p)).state.messages.length) := by
  have h := submit_of_error cfg ep st p hp e (hf _ _ _ _)
  rw [h]
  refine ⟨rfl, rfl, ?_⟩
  intro he
  simpa using he.add_one

/-- Witness for C2: the spec scenario — submitting "Hello" against an
endpoint raising a connection error leaves the store at
`[{user, "Hello"}]` (odd length) and displays the error. -/
theorem submit_failure_orphans_user_turn_witness :
    (submit ⟨"http://localhost:11434/v1", "llama2", "dummy", 7 / 10⟩
        (fun _ _ _ _ => Except.error "Connection error") ⟨[], none⟩
        (some "Hello")).state.messages = [] ++ [⟨"user", "Hello"⟩] ∧
    (submit ⟨"http://localhost:11434/v1", "llama2", "dummy", 7 / 10⟩
        (fun _ _ _ _ => Except.error "Connection error") ⟨[], none⟩
        (some "Hello")).display =
      SubmitDisplay.failure ("❌ Error: " ++ "Connection error") failureNotice ∧
    (Even ([] : List Message).length →
      Odd (submit ⟨"http://localhost:11434/v1", "llama2", "dummy", 7 / 10⟩
        (fun _ _ _ _ => Except.error "Connection error") ⟨[], none⟩
        (some "Hello")).state.messages.length) :=
  submit_failure_orphans_user_turn
    ⟨"http://localhost:11434/v1", "llama2", "dummy", 7 / 10⟩
    (fun _ _ _ _ => Except.error "Connection error") ⟨[], none⟩
    "Hello" "Connection error" (by simp) (fun _ _ _ _ => rfl)

/-- C4: an exception from the Completion Requester is caught at the
submit boundary and rendered as its string form (the transition is a
total function — nothing propagates, the process survives), and a retry
by submitting again re-sends the full history including the orphaned
user turn. -/
theorem submit_exception_caught_retry_resends (cfg cfg2 : Config)
    (ep ep2 : Endpoint) (st : AppState) (p p2 e : String)
    (hp : p ≠ "") (hp2 : p2 ≠ "") (hf : EndpointAlwaysRaises ep e) :
    (submit cfg ep st (some p)).display =
      SubmitDisplay.failure ("❌ Error: " ++ e) failureNotice ∧
    (submit cfg2 ep2 (submit cfg ep st (some p)).state (some p2)).calls =
      [⟨effectiveClient cfg st, cfg2.model_name,
        st.messages ++ [⟨"user", p⟩] ++ [⟨"user", p2⟩], cfg2.temperature⟩] := by
  have h := submit_of_error cfg ep st p hp e (hf _ _ _ _)
  rw [h]
  refine ⟨rfl, ?_⟩
  have h2 := submit_calls cfg2 ep2
    ⟨st.messages ++ [⟨"user", p⟩], some (effectiveClient cfg st)⟩ p2 hp2
  simpa [effectiveClient] using h2

/-- Witness for C4: a failed "Hello" is displayed as an error, and
retrying with "Hello again" sends the history `[user "Hello",
user "Hello again"]`, orphaned turn included. -/
theorem submit_exception_caught_retry_resends_witness :
    (submit ⟨"http://localhost:11434/v1", "llama2", "dummy", 7 / 10⟩
        (fun _ _ _ _ => Except.error "Connection error") ⟨[], none⟩
        (some "Hello")).display =
      SubmitDisplay.failure ("❌ Error: " ++ "Connection error") failureNotice ∧
    (submit ⟨"http://localhost:11434/v1", "llama2", "dummy", 7 / 10⟩
        (stubEndpoint "Hi there")
        (submit ⟨"http://localhost:11434/v1", "llama2", "dummy", 7 / 10⟩
          (fun _ _ _ _ => Except.error "Connection error") ⟨[], none⟩
          (some "Hello")).state (some "Hello again")).calls =
      [⟨effectiveClient ⟨"http://localhost:11434/v1", "llama2", "dummy", 7 / 10⟩
          ⟨[], none⟩, "llama2",
        [] ++ [⟨"user", "Hello"⟩] ++ [⟨"user", "Hello again"⟩], 7 / 10⟩] :=
  submit_exception_caught_retry_resends
    ⟨"http://localhost:11434/v1", "llama2", "dummy", 7 / 10⟩
    ⟨"http://localhost:11434/v1", "llama2", "dummy", 7 / 10⟩
    (fun _ _ _ _ => Except.error "Connection error") (stubEndpoint "Hi there")
    ⟨[], none⟩ "Hello" "Hello again" "Connection error"
    (by simp) (by simp) (fun _ _ _ _ => rfl)

/-! ## Shape of the store after one pass through the submit branch -/

lemma submit_messages_shape (cfg : Config) (ep : Endpoint) (st : AppState)
    (input : Option String) :
    (submit cfg ep st input).state.messages = st.messages ∨
    (∃ p, (submit cfg ep st input).state.messages =
      st.messages ++ [⟨"user", p⟩]) ∨
    (∃ p r, (submit cfg ep st input).state.messages =
      st.messages ++ [⟨"user", p⟩, ⟨"assistant", r⟩]) := by
  rcases input with _ | p
  · exact Or.inl rfl
  by_cases hp : p = ""
  · exact Or.inl (by simp [submit, hp])
  rcases hres : (get_llm_response ep (effectiveClient cfg st) cfg.model_name
      (st.messages ++ [⟨"user", p⟩]) cfg.temperature).1 with e | resp
  · exact Or.inr (Or.inl ⟨p, by simp [submit, hp, hres]⟩)
  · exact Or.inr (Or.inr ⟨p, resp, by simp [submit, hp, hres]⟩)

lemma rolesOK_append (l1 l2 : List Message) (h1 : RolesOK l1) (h2 : RolesOK l2) :
    RolesOK (l1 ++ l2) := by
  intro m hm
  rcases List.mem_append.mp hm with h | h
  · exact h1 m h
  · exact h2 m h

/-- C8: every operation preserves the invariant that stored roles are
`"user"` or `"assistant"`, and the store is only ever left unchanged
(update settings, re-render), emptied (clear), or appended to (submit)
— never reordered. -/
theorem ops_preserve_store_invariants (cfg : Config) (ep : Endpoint)
    (st : AppState) (input : Option String) (h : RolesOK st.messages) :
    RolesOK (update_settings cfg st).messages ∧
    (update_settings cfg st).messages = st.messages ∧
    RolesOK (clear_chat st).messages ∧
    (clear_chat st).messages = [] ∧
    rerender st = st ∧
    RolesOK (submit cfg ep st input).state.messages ∧
    (∃ tail, (submit cfg ep st input).state.messages = st.messages ++ tail) := by
  have hshape := submit_messages_shape cfg ep st input
  refine ⟨h, rfl, ?_, rfl, rfl, ?_, ?_⟩
  · intro m hm; simp [clear_chat] at hm
  · rcases hshape with heq | ⟨p, heq⟩ | ⟨p, r, heq⟩ <;> rw [heq]
    · exact h
    · refine rolesOK_append _ _ h ?_
      intro m hm; simp at hm; subst hm; exact Or.inl rfl
    · refine rolesOK_append _ _ h ?_
      intro m hm
      simp at hm
      rcases hm with hm | hm <;> subst hm
      · exact Or.inl rfl
      · exact Or.inr rfl
  · rcases hshape with heq | ⟨p, heq⟩ | ⟨p, r, heq⟩
    · exact ⟨[], by simpa using heq⟩
    · exact ⟨[⟨"user", p⟩], heq⟩
    · exact ⟨[⟨"user", p⟩, ⟨"assistant", r⟩], heq⟩

/-- Witness for C8: from the empty (role-correct) store, all four
operations preserve the invariant; the submit step appends. -/
theorem ops_preserve_store_invariants_witness :
    RolesOK (update_settings ⟨"http://localhost:11434/v1", "llama2", "dummy",
        7 / 10⟩ ⟨[], none⟩).messages ∧
    (update_settings ⟨"http://localhost:11434/v1", "llama2", "dummy", 7 / 10⟩
        ⟨[], none⟩).messages = ([] : List Message) ∧
    RolesOK (clear_chat ⟨[], none⟩).messages ∧
    (clear_chat (⟨[], none⟩ : AppState)).messages = [] ∧
    rerender ⟨[], none⟩ = (⟨[], none⟩ : AppState) ∧
    RolesOK (submit ⟨"http://localhost:11434/v1", "llama2", "dummy", 7 / 10⟩
        (stubEndpoint "Hi there") ⟨[], none⟩ (some "Hello")).state.messages ∧
    (∃ tail, (submit ⟨"http://localhost:11434/v1", "llama2", "dummy", 7 / 10⟩
        (stubEndpoint "Hi there") ⟨[], none⟩
        (some "Hello")).state.messages = [] ++ tail) :=
  ops_preserve_store_invariants
    ⟨"http://localhost:11434/v1", "llama2", "dummy", 7 / 10⟩
    (stubEndpoint "Hi there") ⟨[], none⟩ (some "Hello")
    (by intro m hm; simp at hm)

/-! ## Runs of successful submissions -/

lemma chatPairs_length (l : List (String × String)) :
    (chatPairs l).length = 2 * l.length := by
  induction l with
  | nil => rfl
  | cons hd tl ih =>
    rcases hd with ⟨p, r⟩
    simp only [chatPairs, List.length_cons, ih]
    ring

lemma submit_ok_exists (cfg : Config) (ep : Endpoint) (st : AppState)
    (p : String) (hp : p ≠ "") (hok : EndpointAlwaysOk ep) :
    ∃ rep, (submit cfg ep st (some p)).state.messages =
      st.messages ++ [⟨"user", p⟩, ⟨"assistant", rep⟩] := by
  obtain ⟨r, ch, rest, h1, h2⟩ := hok (effectiveClient cfg st) cfg.model_name
    (st.messages ++ [⟨"user", p⟩]) cfg.temperature
  exact ⟨ch.message.content, by rw [submit_of_ok cfg ep st p hp r ch rest h1 h2]⟩

lemma run_submissions_ok (cfg : Config) (ep : Endpoint)
    (hok : EndpointAlwaysOk ep) :
    ∀ (prompts : List String) (st : AppState), (∀ p ∈ prompts, p ≠ "") →
    ∃ replies : List String, replies.length = prompts.length ∧
      (run_submissions cfg ep st prompts).messages =
        st.messages ++ chatPairs (prompts.zip replies) := by
  intro prompts
  induction prompts with
  | nil =>
    intro st _
    exact ⟨[], rfl, by simp [run_submissions, chatPairs]⟩
  | cons p ps ih =>
    intro st h
    obtain ⟨rep, hrep⟩ := submit_ok_exists cfg ep st p (h p (by simp)) hok
    obtain ⟨replies, hlen, hrun⟩ := ih (submit cfg ep st (some p)).state
      (fun q hq => h q (by simp [hq]))
    refine ⟨rep :: replies, by simp [hlen], ?_⟩
    rw [show run_submissions cfg ep st (p :: ps) =
      run_submissions cfg ep (submit cfg ep st (some p)).state ps from rfl]
    rw [hrun, hrep]
    simp [chatPairs, List.zip]

/-- C1: starting from the empty store, a run of N submissions on which
every completion request succeeds leaves exactly 2N messages: for each
submission the user message followed by the assistant message returned
by the requester, in submission order. -/
theorem successful_run_alternates (cfg : Config) (ep : Endpoint)
    (cl : Option ClientHandle) (prompts : List String)
    (hok : EndpointAlwaysOk ep) (hne : ∀ p ∈ prompts, p ≠ "") :
    ∃ replies : List String, replies.length = prompts.length ∧
      (run_submissions cfg ep ⟨[], cl⟩ prompts).messages =
        chatPairs (prompts.zip replies) ∧
      (run_submissions cfg ep ⟨[], cl⟩ prompts).messages.length =
        2 * prompts.length := by
  obtain ⟨replies, hlen, hrun⟩ := run_submissions_ok cfg ep hok prompts ⟨[], cl⟩ hne
  have hmsgs : (run_submissions cfg ep ⟨[], cl⟩ prompts).messages =
      chatPairs (prompts.zip replies) := by simpa using hrun
  refine ⟨replies, hlen, hmsgs, ?_⟩
  rw [hmsgs, chatPairs_length]
  simp [List.length_zip, hlen]

/-- Witness for C1: two successful submissions against the "Hi there"
stub leave a 4-entry store alternating user/assistant. -/
theorem successful_run_alternates_witness :
    ∃ replies : List String,
      replies.length = (["Hello", "How are you"] : List String).length ∧
      (run_submissions ⟨"http://localhost:11434/v1", "llama2", "dummy", 7 / 10⟩
          (stubEndpoint "Hi there") ⟨[], none⟩
          ["Hello", "How are you"]).messages =
        chatPairs ((["Hello", "How are you"] : List String).zip replies) ∧
      (run_submissions ⟨"http://localhost:11434/v1", "llama2", "dummy", 7 / 10⟩
          (stubEndpoint "Hi there") ⟨[], none⟩
          ["Hello", "How are you"]).messages.length =
        2 * (["Hello", "How are you"] : List String).length :=
  successful_run_alternates
    ⟨"http://localhost:11434/v1", "llama2", "dummy", 7 / 10⟩
    (stubEndpoint "Hi there") none ["Hello", "How are you"]
    (fun _ _ _ _ => ⟨⟨[⟨⟨"Hi there"⟩⟩]⟩, ⟨⟨"Hi there"⟩⟩, [], rfl, rfl⟩)
    (by simp)
